import Mathlib

/-!
Shallow embedding of `sdk/python/kfp/compiler/_k8s_helper.py` (class `K8sHelper`).

The control plane is modelled as an environment trace: the result of the
`create_namespaced_pod` call, the sequence of `read_namespaced_pod` outcomes
(each carrying the phase string returned and the elapsed wall-clock seconds
the code computes right after the read), and whether `delete_namespaced_pod`
raises.  Machine behaviour (sleeping, logging) is outside the embedding;
what is kept is exactly the control flow of the Python functions.
-/

/-- One `read_namespaced_pod` interaction inside `_wait_for_k8s_job`:
either the control plane answers with a phase string (and the code then
observes `elapsed` seconds since `start_time`), or the read raises
`ApiException`. -/
inductive ReadEvent where
  | ok (phase : String) (elapsed : Nat)
  | err
deriving DecidableEq

/-- Python's `str.lower()` as used on phase strings (`api_response.status.
phase.lower()`), as a per-character map over the string's characters. -/
def strLower (s : String) : String := ⟨s.data.map Char.toLower⟩

/-- `_wait_for_k8s_job`, with an explicit read count.  The Python loop is

    status = 'running'
    while status in ['pending', 'running']:
      try:
        read -> phase ; status = phase.lower() ; sleep 5
        if elapsed_time > timeout: return False
      except ApiException: return False
    return status == 'succeeded'

`waitSteps timeout events status` returns `none` when the event trace is
exhausted while the loop would still continue, otherwise `some (result,
number of reads performed)`. -/
def waitSteps (timeout : Nat) (events : List ReadEvent) (status : String) : Option (Bool × Nat) :=
  if status = "pending" ∨ status = "running" then
    match events with
    | [] => none
    | ReadEvent.err :: _ => some (false, 1)
    | ReadEvent.ok phase elapsed :: rest =>
      if elapsed > timeout then some (false, 1)
      else (waitSteps timeout rest (strLower phase)).map (fun p => (p.1, p.2 + 1))
  else
    some (status == "succeeded", 0)

/-- `_wait_for_k8s_job` proper: just the boolean the Python function returns. -/
def waitForK8sJob (timeout : Nat) (events : List ReadEvent) : Option Bool :=
  (waitSteps timeout events "running").map Prod.fst

/-- Environment of one `run_job` invocation: the create call returns a
generated pod name (`some name`) or raises `ApiException` (`none`); then the
status reads; and whether the delete call raises. -/
structure Env where
  createResult : Option String
  events : List ReadEvent
  deleteFails : Bool
deriving DecidableEq

/-- `_create_k8s_job`: returns `(api_response.metadata.name, True)` on
success, `('', False)` when `create_namespaced_pod` raises `ApiException`. -/
def createK8sJob (env : Env) : String × Bool :=
  match env.createResult with
  | some name => (name, true)
  | none => ("", false)

/-- `_delete_k8s_job`: calls `delete_namespaced_pod`; an `ApiException` is
caught and only logged, so the function returns nothing either way. -/
def deleteK8sJob (deleteFails : Bool) : Unit :=
  match deleteFails with
  | true => ()
  | false => ()

/-- Observable outcome of `run_job`: the boolean it returns, how many
delete attempts were made, and how many status reads occurred. -/
structure RunOutcome where
  result : Bool
  deleteAttempts : Nat
  statusReads : Nat
deriving DecidableEq

/-- `run_job`:

    pod_name, succ = self._create_k8s_job(yaml_spec)
    if not succ: return False
    succ = self._wait_for_k8s_job(pod_name, yaml_spec, timeout)
    if not succ: return False
    self._delete_k8s_job(pod_name, yaml_spec)
    return succ

`none` means the read trace was exhausted while polling would continue. -/
def runJob (env : Env) (timeout : Nat) : Option RunOutcome :=
  let created := createK8sJob env
  if created.2 = false then
    some { result := false, deleteAttempts := 0, statusReads := 0 }
  else
    match waitSteps timeout env.events "running" with
    | none => none
    | some (succ, reads) =>
      if succ = false then
        some { result := false, deleteAttempts := 0, statusReads := reads }
      else
        let _ := deleteK8sJob env.deleteFails
        some { result := succ, deleteAttempts := 1, statusReads := reads }

/-- An event the poll loop consumes and keeps looping on: a successful read
whose lowercased phase is `pending` or `running`, observed within the
timeout. -/
def nonTerminalOk (timeout : Nat) : ReadEvent → Bool
  | ReadEvent.ok phase elapsed =>
      ((strLower phase) == "pending" || (strLower phase) == "running") && decide (elapsed ≤ timeout)
  | ReadEvent.err => false

lemma waitSteps_exit (t : Nat) (events : List ReadEvent) (status : String)
    (h : ¬ (status = "pending" ∨ status = "running")) :
    waitSteps t events status = some (status == "succeeded", 0) := by
  unfold waitSteps
  rw [if_neg h]

lemma waitSteps_loop_err (t : Nat) (rest : List ReadEvent) (status : String)
    (hs : status = "pending" ∨ status = "running") :
    waitSteps t (ReadEvent.err :: rest) status = some (false, 1) := by
  unfold waitSteps
  rw [if_pos hs]

lemma waitSteps_loop_timeout (t : Nat) (phase : String) (elapsed : Nat)
    (rest : List ReadEvent) (status : String)
    (hs : status = "pending" ∨ status = "running") (he : elapsed > t) :
    waitSteps t (ReadEvent.ok phase elapsed :: rest) status = some (false, 1) := by
  unfold waitSteps
  rw [if_pos hs]
  simp [he]

lemma waitSteps_loop_ok (t : Nat) (phase : String) (elapsed : Nat)
    (rest : List ReadEvent) (status : String)
    (hs : status = "pending" ∨ status = "running") (he : ¬ elapsed > t) :
    waitSteps t (ReadEvent.ok phase elapsed :: rest) status
      = (waitSteps t rest (strLower phase)).map (fun p => (p.1, p.2 + 1)) := by
  conv_lhs => unfold waitSteps
  rw [if_pos hs]
  simp [he]

lemma waitSteps_append (t : Nat) (pre : List ReadEvent) :
    ∀ (tail : List ReadEvent) (status : String),
      (status = "pending" ∨ status = "running") →
      pre.all (nonTerminalOk t) = true →
      ∃ s2, (s2 = "pending" ∨ s2 = "running") ∧
        waitSteps t (pre ++ tail) status
          = (waitSteps t tail s2).map (fun p => (p.1, p.2 + pre.length)) := by
  induction pre with
  | nil =>
    intro tail status hs _
    refine ⟨status, hs, ?_⟩
    rw [List.nil_append]
    cases waitSteps t tail status <;> simp
  | cons ev pre ih =>
    intro tail status hs hall
    cases ev with
    | err => simp [nonTerminalOk] at hall
    | ok phase elapsed =>
      simp only [List.all_cons, Bool.and_eq_true] at hall
      obtain ⟨hev, hall⟩ := hall
      simp only [nonTerminalOk, Bool.and_eq_true, Bool.or_eq_true, beq_iff_eq,
        decide_eq_true_eq] at hev
      obtain ⟨hphase, he⟩ := hev
      have hne : ¬ elapsed > t := by omega
      rw [List.cons_append, waitSteps_loop_ok t phase elapsed (pre ++ tail) status hs hne]
      obtain ⟨s2, hs2, heq⟩ := ih tail (strLower phase) hphase hall
      refine ⟨s2, hs2, ?_⟩
      rw [heq]
      cases waitSteps t tail s2 with
      | none => rfl
      | some p => simp [List.length_cons, Nat.add_assoc]

/-- `volumeMounts` list entry of a container in the yaml spec. -/
structure VolumeMountYaml where
  name : String
  mountPath : String
deriving DecidableEq

/-- `env` list entry of a container in the yaml spec. -/
structure EnvVarYaml where
  name : String
  value : String
deriving DecidableEq

/-- Entry of `spec.containers` in the yaml spec (only the keys the code
reads). -/
structure ContainerYaml where
  name : String
  image : String
  args : List String
  volumeMounts : List VolumeMountYaml
  env : List EnvVarYaml
deriving DecidableEq

/-- Entry of `spec.volumes` in the yaml spec (only the keys the code reads:
`name` and `secret.secretName`). -/
structure VolumeYaml where
  name : String
  secretName : String
deriving DecidableEq

/-- The yaml spec handed to `_create_k8s_job`, restricted to the keys the
code accesses. -/
structure YamlSpec where
  generateName : String
  namespaceName : String
  containers : List ContainerYaml
  restartPolicy : String
  serviceAccountName : String
  volumes : List VolumeYaml
deriving DecidableEq

/-- The creation request submitted by `_create_k8s_job`: the namespace of
the `create_namespaced_pod` call plus every field of the `V1Pod` object the
code builds. -/
structure PodRequest where
  namespaceName : String
  generateName : String
  containerName : String
  image : String
  args : List String
  mountName : String
  mountPath : String
  envName : String
  envValue : String
  restartPolicy : String
  serviceAccountName : String
  volumeName : String
  volumeSecretName : String
deriving DecidableEq

/-- The pod-construction part of `_create_k8s_job`: the code indexes
`containers[0]`, `containers[0].volumeMounts[0]`, `containers[0].env[0]` and
`volumes[0]`; a missing element raises (modelled as `none`). -/
def buildPod (y : YamlSpec) : Option PodRequest :=
  match y.containers.head? with
  | none => none
  | some c =>
    match c.volumeMounts.head?, c.env.head?, y.volumes.head? with
    | some vm, some ev, some v =>
      some { namespaceName := y.namespaceName
             generateName := y.generateName
             containerName := c.name
             image := c.image
             args := c.args
             mountName := vm.name
             mountPath := vm.mountPath
             envName := ev.name
             envValue := ev.value
             restartPolicy := y.restartPolicy
             serviceAccountName := y.serviceAccountName
             volumeName := v.name
             volumeSecretName := v.secretName }
    | _, _, _ => none

/-- The projection of a yaml spec that `_create_k8s_job` actually reads:
the scalar fields it accesses plus the first element of each list. -/
def usedPart (y : YamlSpec) :
    String × String × String × String × Option VolumeYaml ×
      Option (String × String × List String × Option VolumeMountYaml × Option EnvVarYaml) :=
  (y.generateName, y.namespaceName, y.restartPolicy, y.serviceAccountName,
    y.volumes.head?,
    y.containers.head?.map (fun c => (c.name, c.image, c.args, c.volumeMounts.head?, c.env.head?)))

/-- `buildPod` factors through `usedPart`. -/
def podOfUsed :
    String × String × String × String × Option VolumeYaml ×
      Option (String × String × List String × Option VolumeMountYaml × Option EnvVarYaml) →
    Option PodRequest
  | (gn, ns, rp, sa, vol, cont) =>
    match cont with
    | none => none
    | some (cn, im, ar, vm?, ev?) =>
      match vm?, ev?, vol with
      | some vm, some ev, some v =>
        some { namespaceName := ns
               generateName := gn
               containerName := cn
               image := im
               args := ar
               mountName := vm.name
               mountPath := vm.mountPath
               envName := ev.name
               envValue := ev.value
               restartPolicy := rp
               serviceAccountName := sa
               volumeName := v.name
               volumeSecretName := v.secretName }
      | _, _, _ => none

lemma buildPod_eq_podOfUsed (y : YamlSpec) : buildPod y = podOfUsed (usedPart y) := by
  unfold buildPod usedPart podOfUsed
  cases y.containers.head? with
  | none => rfl
  | some c =>
    cases c.volumeMounts.head? <;> cases c.env.head? <;> cases y.volumes.head? <;> rfl

/-- Claim C1: the spec requires exactly one deletion attempt whenever a
handle was created, on every exit path of the poll loop.  The code only
deletes on the success path: evaluating `run_job` on a run whose handle was
created and whose poll loop ends in terminal failure, in timeout, or in a
status-read error shows zero delete attempts in all three cases. -/
theorem c1_no_cleanup_on_failure_paths :
    runJob { createResult := some "pod-a", events := [ReadEvent.ok "failed" 5],
             deleteFails := false } 600
      = some { result := false, deleteAttempts := 0, statusReads := 1 } ∧
    runJob { createResult := some "pod-b", events := [ReadEvent.ok "running" 700],
             deleteFails := false } 600
      = some { result := false, deleteAttempts := 0, statusReads := 1 } ∧
    runJob { createResult := some "pod-c", events := [ReadEvent.err],
             deleteFails := false } 600
      = some { result := false, deleteAttempts := 0, statusReads := 1 } := by
  refine ⟨rfl, rfl, rfl⟩

/-- Claim C2 counterexample: a phase string outside
pending/running/succeeded/failed does not keep the loop polling; the loop
exits on it after a single read (the second, successful, read is never
consumed) and reports not-succeeded. -/
theorem c2_unknown_phase_exits_loop :
    waitSteps 600 [ReadEvent.ok "unknown" 5, ReadEvent.ok "succeeded" 10] "running"
      = some (false, 1) := by
  rfl

/-- Claim C2 (amended): any phase whose lowercasing is neither `pending`
nor `running` is terminal for the loop: polling stops after that read and
the result is succeeded iff the phase lowercases to `succeeded`. -/
theorem c2_nonwaiting_phase_is_terminal (t : Nat) (phase : String) (elapsed : Nat)
    (rest : List ReadEvent)
    (hnp : ¬ ((strLower phase) = "pending" ∨ (strLower phase) = "running"))
    (he : elapsed ≤ t) :
    waitSteps t (ReadEvent.ok phase elapsed :: rest) "running"
      = some ((strLower phase) == "succeeded", 1) := by
  have hne : ¬ elapsed > t := by omega
  rw [waitSteps_loop_ok t phase elapsed rest "running" (Or.inr rfl) hne,
    waitSteps_exit t rest (strLower phase) hnp]
  rfl

/-- Claim C2 witness: at phase `unknown` read within the timeout, the loop
stops after one read with a not-succeeded result. -/
theorem c2_nonwaiting_phase_is_terminal_witness :
    waitSteps 600 [ReadEvent.ok "unknown" 3] "running" = some (false, 1) := by
  have h := c2_nonwaiting_phase_is_terminal 600 "unknown" 3 [] (by decide) (by decide)
  exact h

/-- Claim C3: whenever the poll loop exits because a terminal phase
(`succeeded` or `failed`, after lowercasing) was read within the timeout —
after any number of in-time pending/running reads — its result is success
iff that phase is `succeeded`. -/
theorem c3_terminal_phase_decides_result (t : Nat) (pre : List ReadEvent)
    (phase : String) (elapsed : Nat) (rest : List ReadEvent)
    (hpre : pre.all (nonTerminalOk t) = true)
    (hterm : (strLower phase) = "succeeded" ∨ (strLower phase) = "failed")
    (he : elapsed ≤ t) :
    waitSteps t (pre ++ ReadEvent.ok phase elapsed :: rest) "running"
      = some ((strLower phase) == "succeeded", pre.length + 1) := by
  obtain ⟨s2, hs2, heq⟩ :=
    waitSteps_append t pre (ReadEvent.ok phase elapsed :: rest) "running" (Or.inr rfl) hpre
  have hnp : ¬ ((strLower phase) = "pending" ∨ (strLower phase) = "running") := by
    rcases hterm with h | h <;> rw [h] <;> decide
  have hne : ¬ elapsed > t := by omega
  rw [heq, waitSteps_loop_ok t phase elapsed rest s2 hs2 hne,
    waitSteps_exit t rest (strLower phase) hnp]
  simp [Nat.add_comm]

/-- Claim C3 witness: after one pending read, a `failed` read within the
timeout ends the loop with a not-succeeded result after two reads. -/
theorem c3_terminal_phase_decides_result_witness :
    waitSteps 600 [ReadEvent.ok "pending" 5, ReadEvent.ok "failed" 10] "running"
      = some (false, 2) := by
  have h := c3_terminal_phase_decides_result 600 [ReadEvent.ok "pending" 5]
    "failed" 10 [] (by decide) (Or.inr (by decide)) (by decide)
  exact h

/-- Claim C4: when `_create_k8s_job` fails, `run_job` returns failure
immediately: zero status reads and zero delete attempts, whatever the rest
of the environment holds. -/
theorem c4_create_failure_aborts (events : List ReadEvent) (d : Bool) (t : Nat) :
    runJob { createResult := none, events := events, deleteFails := d } t
      = some { result := false, deleteAttempts := 0, statusReads := 0 } := by
  rfl

/-- Claim C5: when create succeeds and the first status read already
reports `succeeded` (within the timeout), `run_job` returns success and
performs exactly one delete attempt. -/
theorem c5_direct_success_deletes_once (name : String) (elapsed : Nat)
    (rest : List ReadEvent) (d : Bool) (t : Nat) (he : elapsed ≤ t) :
    runJob { createResult := some name, events := ReadEvent.ok "succeeded" elapsed :: rest,
             deleteFails := d } t
      = some { result := true, deleteAttempts := 1, statusReads := 1 } := by
  have hne : ¬ elapsed > t := by omega
  have hw : waitSteps t (ReadEvent.ok "succeeded" elapsed :: rest) "running"
      = some (true, 1) := by
    rw [waitSteps_loop_ok t "succeeded" elapsed rest "running" (Or.inr rfl) hne,
      waitSteps_exit t rest (strLower "succeeded") (by decide)]
    rfl
  simp [runJob, createK8sJob, hw, deleteK8sJob]

/-- Claim C5 witness: a concrete direct-success run. -/
theorem c5_direct_success_deletes_once_witness :
    runJob { createResult := some "pod-x", events := [ReadEvent.ok "succeeded" 5],
             deleteFails := false } 600
      = some { result := true, deleteAttempts := 1, statusReads := 1 } := by
  exact c5_direct_success_deletes_once "pod-x" 5 [] false 600 (by decide)

/-- Claim C6: in any poll-loop iteration whose (successfully read) status
comes with an elapsed time exceeding the timeout — after any number of
in-time pending/running reads — the loop aborts there and the run reports
failure, whatever the phase just read was (even `succeeded`). -/
theorem c6_timeout_aborts_run (name : String) (d : Bool) (t : Nat)
    (pre : List ReadEvent) (phase : String) (elapsed : Nat) (rest : List ReadEvent)
    (hpre : pre.all (nonTerminalOk t) = true) (hto : elapsed > t) :
    runJob { createResult := some name, events := pre ++ ReadEvent.ok phase elapsed :: rest,
             deleteFails := d } t
      = some { result := false, deleteAttempts := 0, statusReads := pre.length + 1 } := by
  obtain ⟨s2, hs2, heq⟩ :=
    waitSteps_append t pre (ReadEvent.ok phase elapsed :: rest) "running" (Or.inr rfl) hpre
  have hw : waitSteps t (pre ++ ReadEvent.ok phase elapsed :: rest) "running"
      = some (false, pre.length + 1) := by
    rw [heq, waitSteps_loop_timeout t phase elapsed rest s2 hs2 hto]
    simp [Nat.add_comm]
  simp [runJob, createK8sJob, hw]

/-- Claim C6 witness: phase still `running` with elapsed 700 s against a
600 s timeout on the second read aborts the run with failure. -/
theorem c6_timeout_aborts_run_witness :
    runJob { createResult := some "pod-y",
             events := [ReadEvent.ok "running" 5, ReadEvent.ok "running" 700],
             deleteFails := false } 600
      = some { result := false, deleteAttempts := 0, statusReads := 2 } := by
  exact c6_timeout_aborts_run "pod-y" false 600 [ReadEvent.ok "running" 5]
    "running" 700 [] (by decide) (by decide)

/-- Claim C7: when a status read raises, after any number of in-time
pending/running reads, the poll loop aborts at that read — no event beyond
it is consumed — and reports failure. -/
theorem c7_read_error_aborts_loop (t : Nat) (pre rest : List ReadEvent)
    (hpre : pre.all (nonTerminalOk t) = true) :
    waitSteps t (pre ++ ReadEvent.err :: rest) "running" = some (false, pre.length + 1) := by
  obtain ⟨s2, hs2, heq⟩ :=
    waitSteps_append t pre (ReadEvent.err :: rest) "running" (Or.inr rfl) hpre
  rw [heq, waitSteps_loop_err t rest s2 hs2]
  simp [Nat.add_comm]

/-- Claim C7 witness: a read error on the second read stops the loop after
two reads with a failure result; the later `succeeded` read is never
consumed. -/
theorem c7_read_error_aborts_loop_witness :
    waitSteps 600 [ReadEvent.ok "pending" 5, ReadEvent.err, ReadEvent.ok "succeeded" 10]
      "running" = some (false, 2) := by
  exact c7_read_error_aborts_loop 600 [ReadEvent.ok "pending" 5]
    [ReadEvent.ok "succeeded" 10] (by decide)

/-- Claim C8: whether the delete call raises `ApiException` or not is
invisible to the caller of `run_job`: the returned outcome is identical,
and the error is swallowed inside `_delete_k8s_job` (never raised). -/
theorem c8_delete_error_never_changes_outcome (cr : Option String)
    (events : List ReadEvent) (t : Nat) :
    runJob { createResult := cr, events := events, deleteFails := true } t
      = runJob { createResult := cr, events := events, deleteFails := false } t := by
  cases cr <;> rfl

/-- Claim C9: the creation request built by `_create_k8s_job` depends only
on the fields of the yaml spec the code reads — the scalar metadata/spec
fields and the FIRST element of each of the `containers`, `volumeMounts`,
`env` and `volumes` lists; elements beyond the first never influence it. -/
theorem c9_only_head_elements_influence_request (y1 y2 : YamlSpec)
    (h : usedPart y1 = usedPart y2) : buildPod y1 = buildPod y2 := by
  rw [buildPod_eq_podOfUsed, buildPod_eq_podOfUsed, h]

/-- A yaml spec with extra trailing containers, mounts, env vars and
volumes. -/
def specTailed : YamlSpec :=
  { generateName := "job-", namespaceName := "default",
    containers := [{ name := "main", image := "img:1", args := ["run"],
                     volumeMounts := [{ name := "vm", mountPath := "/data" },
                                      { name := "vm2", mountPath := "/extra" }],
                     env := [{ name := "E", value := "1" }, { name := "F", value := "2" }] },
                   { name := "sidecar", image := "other", args := [],
                     volumeMounts := [], env := [] }],
    restartPolicy := "Never", serviceAccountName := "sa",
    volumes := [{ name := "vol", secretName := "sec" },
                { name := "vol2", secretName := "sec2" }] }

/-- The same yaml spec with every list truncated to its first element. -/
def specHeadOnly : YamlSpec :=
  { generateName := "job-", namespaceName := "default",
    containers := [{ name := "main", image := "img:1", args := ["run"],
                     volumeMounts := [{ name := "vm", mountPath := "/data" }],
                     env := [{ name := "E", value := "1" }] }],
    restartPolicy := "Never", serviceAccountName := "sa",
    volumes := [{ name := "vol", secretName := "sec" }] }

/-- Claim C9 witness: two distinct specs differing only past the first
element of each list yield the same creation request. -/
theorem c9_only_head_elements_influence_request_witness :
    specTailed ≠ specHeadOnly ∧ buildPod specTailed = buildPod specHeadOnly :=
  ⟨by decide, c9_only_head_elements_influence_request specTailed specHeadOnly rfl⟩

/-- Claim C10: phase strings are lowercased before comparison: a read of
`Pending` or `Running` keeps the loop polling, and a subsequent `Succeeded`
read (all within the timeout) ends the loop with success after the two
reads. -/
theorem c10_phase_compared_lowercased (t e1 e2 : Nat) (rest : List ReadEvent) (p : String)
    (hp : p = "Pending" ∨ p = "Running") (h1 : e1 ≤ t) (h2 : e2 ≤ t) :
    waitSteps t (ReadEvent.ok p e1 :: ReadEvent.ok "Succeeded" e2 :: rest) "running"
      = some (true, 2) := by
  have hn1 : ¬ e1 > t := by omega
  have hn2 : ¬ e2 > t := by omega
  have hlow : strLower p = "pending" ∨ strLower p = "running" := by
    rcases hp with h | h
    · rw [h]; exact Or.inl rfl
    · rw [h]; exact Or.inr rfl
  rw [waitSteps_loop_ok t p e1 (ReadEvent.ok "Succeeded" e2 :: rest) "running"
      (Or.inr rfl) hn1,
    waitSteps_loop_ok t "Succeeded" e2 rest (strLower p) hlow hn2,
    waitSteps_exit t rest (strLower "Succeeded") (by decide)]
  rfl

/-- Claim C10 witness: `Running` then `Succeeded` (capitalised, as the
control plane reports them) gives a successful loop exit after two reads. -/
theorem c10_phase_compared_lowercased_witness :
    waitSteps 600 [ReadEvent.ok "Running" 5, ReadEvent.ok "Succeeded" 10] "running"
      = some (true, 2) := by
  exact c10_phase_compared_lowercased 600 5 10 [] "Running" (Or.inr rfl)
    (by decide) (by decide)
